import Mathlib

/-!
Verification of the OTP background-task manager (`api.py`).

The development shallowly embeds the task data model, the Redis-backed
record store, the OTP service request layer, the control-plane operations
(`stop_task`, `get_task_info`, `delete_task`) and the background runner
(`_run_task`) as executable Lean definitions, and proves the specified
properties about them.

Modelling conventions:
* A single task is modelled (all claims are per-task).  The store holds an
  optional structured record plus its remaining TTL; the string
  serialization performed by `RedisManager` is lossless for the fields
  involved and is elided.
* Timestamps are natural numbers: each call to `datetime.now()` yields the
  current value of an explicit clock counter.  `last_activity` holds either
  a rendered timestamp or an error description, as in the source.
* The runner's cancellation event is a monotone boolean signal `sig`
  observed at successive `is_set()` call sites, indexed by a tick counter.
* Each HTTP request's outcome is an oracle value: either an HTTP response
  (any status code) or one of the exception cases caught in
  `OTPService.send_request`.
* An unrecoverable fault inside the runner's `try` block (e.g. the store
  becoming unreachable) is modelled by an oracle `fault : Option Nat`
  firing when the runner is about to process its `k`-th action.
-/

/-- Task status enumeration (`TaskStatus` in the source). -/
inductive TaskStatus where
  | pending
  | running
  | stopped
  | completed
  | error
deriving DecidableEq

/-- Per-service statistics entry: the `{"success": n, "failed": m}` values of
the `services_stats` mapping. -/
structure SvcStat where
  success : Nat
  failed : Nat
deriving DecidableEq

/-- The `services_stats` mapping, as an association list (Python dict with
insertion order). -/
abbrev Stats := List (String × SvcStat)

/-- The structured task record stored under `otp:task:<task_id>`. -/
structure TaskRecord where
  task_id : String
  phone_number : String
  interval : Nat
  status : TaskStatus
  created_at : Nat
  started_at : Option Nat
  stopped_at : Option Nat
  iterations : Nat
  total_requests : Nat
  successful_requests : Nat
  failed_requests : Nat
  last_activity : Option String
  services_stats : Stats
deriving DecidableEq

/-- A partial field update passed to `RedisManager.update_task` (an `hset`
merge: only the listed fields are written).  Only fields that some call site
actually writes appear; `task_id`, `phone_number`, `interval` and
`created_at` are never updated. -/
structure Upd where
  status : Option TaskStatus := none
  started_at : Option Nat := none
  stopped_at : Option Nat := none
  iterations : Option Nat := none
  total_requests : Option Nat := none
  successful_requests : Option Nat := none
  failed_requests : Option Nat := none
  last_activity : Option String := none
  services_stats : Option Stats := none
deriving DecidableEq

/-- Merge of an optional-valued field: a written value replaces the stored
one, an unwritten field keeps it. -/
def mergeOpt (new old : Option α) : Option α :=
  match new with
  | some v => some v
  | none => old

/-- Apply a partial update to a stored record (the effect of `hset` with the
given mapping on an existing hash). -/
def applyUpd (t : TaskRecord) (u : Upd) : TaskRecord :=
  { task_id := t.task_id
    phone_number := t.phone_number
    interval := t.interval
    status := u.status.getD t.status
    created_at := t.created_at
    started_at := mergeOpt u.started_at t.started_at
    stopped_at := mergeOpt u.stopped_at t.stopped_at
    iterations := u.iterations.getD t.iterations
    total_requests := u.total_requests.getD t.total_requests
    successful_requests := u.successful_requests.getD t.successful_requests
    failed_requests := u.failed_requests.getD t.failed_requests
    last_activity := mergeOpt u.last_activity t.last_activity
    services_stats := u.services_stats.getD t.services_stats }

/-- The record store state for one task: the stored record, if present, and
the key's remaining time-to-live in seconds (`none` = no expiry). -/
structure RedisStore where
  record : Option TaskRecord
  ttl : Option Nat
deriving DecidableEq

/-- Initial task record written by `RedisManager.create_task`: status
pending, all counters zero, no timestamps besides `created_at`, and an
empty `services_stats` mapping (the source writes `"services_stats": {}`). -/
def create_task_record (task_id phone_number : String) (interval now : Nat) :
    TaskRecord :=
  { task_id := task_id
    phone_number := phone_number
    interval := interval
    status := TaskStatus.pending
    created_at := now
    started_at := none
    stopped_at := none
    iterations := 0
    total_requests := 0
    successful_requests := 0
    failed_requests := 0
    last_activity := none
    services_stats := [] }

namespace RedisManager

/-- Redis manager `create_task`: writes the initial record via `hset` and
sets a 24-hour expiry (`expire(key, 86400)`). -/
def create_task (task_id phone_number : String) (interval now : Nat) :
    RedisStore :=
  { record := some (create_task_record task_id phone_number interval now)
    ttl := some 86400 }

/-- Redis manager `update_task`: merge-update of the stored record.  `hset`
on an existing key does not touch its TTL.  (All update call sites in the
source address a record that was created earlier; the case of `hset`
creating a fresh partial hash is not reached by the modelled operations.) -/
def update_task (s : RedisStore) (u : Upd) : RedisStore :=
  { record := s.record.map (fun t => applyUpd t u), ttl := s.ttl }

/-- Redis manager `delete_task`: removes the key (and with it its TTL);
returns whether a key was deleted. -/
def delete_task (s : RedisStore) : RedisStore × Bool :=
  ({ record := none, ttl := none }, s.record.isSome)

end RedisManager

/-- Names of the three configured services, in `TaskManager.SERVICES`
order: `HungamaService`, `ShemarooMeService`, `UnacademyService`. -/
def serviceNames : List String := ["Hungama", "ShemarooMe", "Unacademy"]

/-- The runner's in-memory statistics, initialized at the top of
`_run_task`: one zero entry per configured service. -/
def initStats : Stats := serviceNames.map (fun n => (n, ⟨0, 0⟩))

/-- Sum of the per-service success counts of a statistics mapping. -/
def sumSucc (ls : Stats) : Nat := (ls.map (fun p => p.2.success)).sum

/-- Sum of the per-service failed counts of a statistics mapping. -/
def sumFail (ls : Stats) : Nat := (ls.map (fun p => p.2.failed)).sum

/-- In-place increment `services_stats[name]["success" or "failed"] += 1`:
the entry with the given key is bumped, other entries are untouched. -/
def bumpStats (ls : Stats) (name : String) (b : Bool) : Stats :=
  ls.map (fun p =>
    if p.1 = name then
      (p.1, if b then ⟨p.2.success + 1, p.2.failed⟩
            else ⟨p.2.success, p.2.failed + 1⟩)
    else p)

/-- A response from an OTP service (`ServiceResponse` dataclass).  The
`success` field is computed in `__post_init__` as `error is None`. -/
structure ServiceResponse where
  service_name : String
  status_code : Option Nat
  response_data : Option String
  error : Option String
  success : Bool
deriving DecidableEq

/-- Construct a `ServiceResponse`, running `__post_init__`. -/
def mkServiceResponse (name : String) (code : Option Nat)
    (data : Option String) (err : Option String) : ServiceResponse :=
  { service_name := name
    status_code := code
    response_data := data
    error := err
    success := err.isNone }

/-- Environmental outcome of one HTTP POST issued by
`OTPService.send_request`: either an HTTP response (with any status code)
or one of the exception cases caught by its handlers. -/
inductive HttpOutcome where
  | ok (status_code : Nat) (body : String)
  | timeout
  | requestError (msg : String)
  | otherError (msg : String)
deriving DecidableEq

/-- Whether the outcome is an exception raised during the request (rather
than a returned HTTP response). -/
def isExcOutcome : HttpOutcome → Bool
  | HttpOutcome.ok _ _ => false
  | _ => true

/-- Embedding of `OTPService.send_request`: an HTTP response of any status code yields a
response with `error = None`; a raised `TimeoutException`, `RequestError`
or any other exception is caught and converted into a response whose
`error` field is set. -/
def send_request (name : String) (o : HttpOutcome) : ServiceResponse :=
  match o with
  | HttpOutcome.ok code body => mkServiceResponse name (some code) (some body) none
  | HttpOutcome.timeout => mkServiceResponse name none none (some "Request timed out")
  | HttpOutcome.requestError m =>
      mkServiceResponse name none none (some ("Request failed: " ++ m))
  | HttpOutcome.otherError m => mkServiceResponse name none none (some m)

/-- Outcome of `TaskManager.stop_task`: the "not found" error, the
"not running" error (reporting the current status), or success. -/
inductive StopOutcome where
  | notFound
  | invalidState (s : TaskStatus)
  | stopped
deriving DecidableEq

/-- Result of `TaskManager.stop_task`: the returned outcome, the resulting
store, the resulting registry entry for the task (the in-memory
`active_tasks` mapping restricted to this task), and whether the
cancellation event was signalled (`stop_event.set()` called). -/
structure StopRes where
  outcome : StopOutcome
  store : RedisStore
  registry : Option Bool
  signalled : Bool
deriving DecidableEq

/-- The merge-update written by `stop_task` on success. -/
def stopUpd (now : Nat) : Upd :=
  { status := some TaskStatus.stopped, stopped_at := some now }

namespace TaskManager

/-- Embedding of `TaskManager.stop_task`: reads the record; errors if absent or not
running; otherwise signals and deregisters the cancellation event if
registered, and merge-updates `status=stopped, stopped_at=now`. -/
def stop_task (s : RedisStore) (reg : Option Bool) (now : Nat) : StopRes :=
  match s.record with
  | none => ⟨StopOutcome.notFound, s, reg, false⟩
  | some t =>
    if t.status ≠ TaskStatus.running then
      ⟨StopOutcome.invalidState t.status, s, reg, false⟩
    else
      ⟨StopOutcome.stopped, RedisManager.update_task s (stopUpd now), none,
        reg.isSome⟩

/-- Outcome of `TaskManager.delete_task`. -/
inductive DeleteOutcome where
  | notFound
  | invalidState
  | deleted
deriving DecidableEq

/-- Embedding of `TaskManager.delete_task`: errors if the record is absent, refuses (and
changes nothing) if the task is running, otherwise deletes the key. -/
def delete_task (s : RedisStore) : DeleteOutcome × RedisStore :=
  match s.record with
  | none => (DeleteOutcome.notFound, s)
  | some t =>
    if t.status = TaskStatus.running then (DeleteOutcome.invalidState, s)
    else (DeleteOutcome.deleted, (RedisManager.delete_task s).1)

/-- Runtime computation in `get_task_info`: `now - started_at` while
running, else `stopped_at - started_at` when both are present. -/
def runtimeOf (t : TaskRecord) (now : Nat) : Option Int :=
  match t.started_at with
  | none => none
  | some st =>
    if t.status = TaskStatus.running then some ((now : Int) - st)
    else
      match t.stopped_at with
      | some sp => some ((sp : Int) - st)
      | none => none

end TaskManager

/-- Decimal rendering of a percentage with one fractional digit, as the
f-string `f"{x:.1f}%"` produces.  The value is rounded to the nearest
tenth (the source formats a binary double; its rounding of exact decimal
ties through the binary representation is abstracted by rational
rounding). -/
def fmt_pct_1f (q : ℚ) : String :=
  let n : Int := round (q * 10)
  toString (n / 10) ++ "." ++ toString (n % 10) ++ "%"

/-- The success-rate formula exactly as the spec words it: modelled from
the spec, "successful_requests / max(total_requests, 1) as a
percentage". -/
def spec_success_rate (t : TaskRecord) : ℚ :=
  ((t.successful_requests : ℚ) * 100) / ((max t.total_requests 1 : Nat) : ℚ)

/-- The task-information view returned by `TaskManager.get_task_info`. -/
structure TaskInfo where
  task_id : String
  phone_number : String
  interval_seconds : Nat
  status : TaskStatus
  created_at : Nat
  started_at : Option Nat
  stopped_at : Option Nat
  runtime : Option Int
  iterations : Nat
  total_requests : Nat
  successful_requests : Nat
  failed_requests : Nat
  success_rate : String
  last_activity : Option String
  services_stats : Stats
deriving DecidableEq

namespace TaskManager

/-- Embedding of `TaskManager.get_task_info`: a pure read of the stored record, with the
derived runtime and the success rate
`(successful_requests / max(total_requests, 1)) * 100` rendered with one
fractional digit. -/
def get_task_info (s : RedisStore) (now : Nat) : Option TaskInfo :=
  match s.record with
  | none => none
  | some t =>
    some { task_id := t.task_id
           phone_number := t.phone_number
           interval_seconds := t.interval
           status := t.status
           created_at := t.created_at
           started_at := t.started_at
           stopped_at := t.stopped_at
           runtime := runtimeOf t now
           iterations := t.iterations
           total_requests := t.total_requests
           successful_requests := t.successful_requests
           failed_requests := t.failed_requests
           success_rate :=
             fmt_pct_1f
               (((t.successful_requests : ℚ) /
                 ((max t.total_requests 1 : Nat) : ℚ)) * 100)
           last_activity := t.last_activity
           services_stats := t.services_stats }

end TaskManager

/-- In-flight state of one `_run_task` thread together with the store it
writes to.  `iter` is the local `iteration` counter, `stats` the local
`services_stats`, `tick` the index of the next `stop_event.is_set()`
observation, `acts` the number of actions processed so far (the index into
the HTTP-outcome and fault oracles), `clock` the next `datetime.now()`
value, and `log` the sequence of merge-updates issued so far. -/
structure RunState where
  store : RedisStore
  stats : Stats
  iter : Nat
  tick : Nat
  acts : Nat
  clock : Nat
  log : List Upd
deriving DecidableEq

/-- The merge-update issued after one action: the stored counters read back
from the record plus one, the full current local statistics snapshot, and
`last_activity = now`. -/
def mkActionUpd (t : TaskRecord) (stats' : Stats) (iter clock : Nat)
    (b : Bool) : Upd :=
  { iterations := some iter
    total_requests := some (t.total_requests + 1)
    successful_requests := some (t.successful_requests + if b then 1 else 0)
    failed_requests := some (t.failed_requests + if b then 0 else 1)
    last_activity := some (toString clock)
    services_stats := some stats' }

/-- The merge-update written by the runner's exception handler. -/
def errorUpd (now : Nat) (msg : String) : Upd :=
  { status := some TaskStatus.error
    stopped_at := some now
    last_activity := some ("Error: " ++ msg) }

/-- The merge-update written by the runner before its loop:
`status=running, started_at=now`. -/
def runningUpd (now : Nat) : Upd :=
  { status := some TaskStatus.running, started_at := some now }

/-- The runner's state right after its initial
`status=running, started_at=now` write and local initialization, before the
first loop check. -/
def initRunState (store0 : RedisStore) : RunState :=
  { store := RedisManager.update_task store0 (runningUpd 0)
    stats := initStats
    iter := 0
    tick := 0
    acts := 0
    clock := 1
    log := [runningUpd 0] }

namespace TaskManager

/-- Processing of one action inside the `for service_class` loop body (after
the cancellation check): send the request, classify it, bump the local
statistics, read the record back and, if it is still present, merge-update
the counters.  Ends with the pre-wait cancellation check (the interruptible
sleep itself alters no modelled state). -/
def processAction (out : Nat → HttpOutcome) (name : String) (st : RunState) :
    RunState :=
  let resp := send_request name (out st.acts)
  let b := resp.success
  let stats' := bumpStats st.stats name b
  match st.store.record with
  | none =>
    { st with stats := stats', acts := st.acts + 1, tick := st.tick + 1 }
  | some t =>
    let u := mkActionUpd t stats' st.iter st.clock b
    { st with
      stats := stats'
      store := RedisManager.update_task st.store u
      log := st.log ++ [u]
      acts := st.acts + 1
      clock := st.clock + 1
      tick := st.tick + 1 }

/-- The `for service_class in self.SERVICES` loop of one pass: before each
action the cancellation signal is checked (observing it breaks the pass);
the fault oracle firing at the current action index models an exception
raised while processing that action (returned flag `true`), propagating to
the handler. -/
def runActions (sig : Nat → Bool) (out : Nat → HttpOutcome)
    (fault : Option Nat) : List String → RunState → RunState × Bool
  | [], st => (st, false)
  | name :: rest, st =>
    if sig st.tick then ({ st with tick := st.tick + 1 }, false)
    else if fault = some st.acts then ({ st with tick := st.tick + 1 }, true)
    else runActions sig out fault rest
      (processAction out name { st with tick := st.tick + 1 })

/-- The `while not stop_event.is_set()` loop, fuelled: each round checks the
signal, increments the local iteration counter and runs one pass over the
configured services; a fault propagates out of the loop. -/
def runLoop (sig : Nat → Bool) (out : Nat → HttpOutcome)
    (fault : Option Nat) : Nat → RunState → RunState × Bool
  | 0, st => (st, false)
  | Nat.succ fuel, st =>
    if sig st.tick then ({ st with tick := st.tick + 1 }, false)
    else
      let p := runActions sig out fault serviceNames
        { st with tick := st.tick + 1, iter := st.iter + 1 }
      if p.2 then p else runLoop sig out fault fuel p.1

/-- Embedding of `TaskManager._run_task`: merge-update `status=running, started_at=now`,
initialize the local statistics, run the loop; when an exception propagates
out of the loop, merge-update `status=error, stopped_at=now,
last_activity="Error: " + str(e)`.  Returns the final state and whether the
exception handler ran.  (The `finally` block only deregisters the
in-memory event, which is not part of this state.) -/
def run_task (sig : Nat → Bool) (out : Nat → HttpOutcome)
    (fault : Option Nat) (msg : String) (fuel : Nat) (store0 : RedisStore) :
    RunState × Bool :=
  let p := runLoop sig out fault fuel (initRunState store0)
  if p.2 then
    let ue := errorUpd p.1.clock msg
    ({ p.1 with
        store := RedisManager.update_task p.1.store ue
        log := p.1.log ++ [ue]
        clock := p.1.clock + 1 }, true)
  else p

end TaskManager

/-- Record states produced by the system's own writes to one task's record,
paired with the runner's local statistics.  The constructors are exactly
the write sites of the source: `create_task`, the runner's initial
`status=running` write, the per-action counter merge-update (built from the
record read back from the store), the coordinator's stop write, and the
runner's error write. -/
inductive Reach : TaskRecord → Stats → Prop where
  | created (task_id phone_number : String) (interval now : Nat) :
      Reach (create_task_record task_id phone_number interval now) initStats
  | runnerStart (t : TaskRecord) (ls : Stats) (now : Nat) :
      Reach t ls → Reach (applyUpd t (runningUpd now)) ls
  | actionWrite (t : TaskRecord) (ls : Stats) (name : String) (b : Bool)
      (iter clock : Nat) :
      Reach t ls → name ∈ serviceNames →
      Reach (applyUpd t (mkActionUpd t (bumpStats ls name b) iter clock b))
        (bumpStats ls name b)
  | stopWrite (t : TaskRecord) (ls : Stats) (now : Nat) :
      Reach t ls → t.status = TaskStatus.running →
      Reach (applyUpd t (stopUpd now)) ls
  | errorWrite (t : TaskRecord) (ls : Stats) (now : Nat) (msg : String) :
      Reach t ls → Reach (applyUpd t (errorUpd now msg)) ls


/-- Unfolding of `bumpStats` on a cons cell. -/
theorem bumpStats_cons (p : String × SvcStat) (rest : Stats) (name : String)
    (b : Bool) :
    bumpStats (p :: rest) name b =
      (if p.1 = name then
        (p.1, if b then ⟨p.2.success + 1, p.2.failed⟩
              else ⟨p.2.success, p.2.failed + 1⟩)
       else p) :: bumpStats rest name b := rfl

/-- Unfolding of `sumSucc` on a cons cell. -/
theorem sumSucc_cons (p : String × SvcStat) (ls : Stats) :
    sumSucc (p :: ls) = p.2.success + sumSucc ls := by
  simp [sumSucc]

/-- Unfolding of `sumFail` on a cons cell. -/
theorem sumFail_cons (p : String × SvcStat) (ls : Stats) :
    sumFail (p :: ls) = p.2.failed + sumFail ls := by
  simp [sumFail]

/-- Bumping a statistics entry does not change the set of keys. -/
theorem bumpStats_map_fst (ls : Stats) (name : String) (b : Bool) :
    (bumpStats ls name b).map Prod.fst = ls.map Prod.fst := by
  induction ls with
  | nil => rfl
  | cons p rest ih =>
    rw [bumpStats_cons, List.map_cons, List.map_cons, ih]
    by_cases h : p.1 = name
    · rw [if_pos h]
    · rw [if_neg h]

/-- A success bump raises the success sum by the key's multiplicity. -/
theorem sumSucc_bumpStats_true (ls : Stats) (name : String) :
    sumSucc (bumpStats ls name true) =
      sumSucc ls + (ls.map Prod.fst).count name := by
  induction ls with
  | nil => rfl
  | cons p rest ih =>
    rw [bumpStats_cons, sumSucc_cons, sumSucc_cons, ih, List.map_cons,
      List.count_cons]
    by_cases h : p.1 = name
    · rw [if_pos h]
      have hb : (p.1 == name) = true := beq_iff_eq.mpr h
      simp [hb]
      omega
    · rw [if_neg h]
      have hb : (p.1 == name) = false := by
        simp only [beq_eq_false_iff_ne, ne_eq]; exact h
      simp [hb]
      omega

/-- A failure bump leaves the success sum unchanged. -/
theorem sumSucc_bumpStats_false (ls : Stats) (name : String) :
    sumSucc (bumpStats ls name false) = sumSucc ls := by
  induction ls with
  | nil => rfl
  | cons p rest ih =>
    rw [bumpStats_cons, sumSucc_cons, sumSucc_cons, ih]
    by_cases h : p.1 = name
    · rw [if_pos h]
      rfl
    · rw [if_neg h]

/-- A failure bump raises the failure sum by the key's multiplicity. -/
theorem sumFail_bumpStats_false (ls : Stats) (name : String) :
    sumFail (bumpStats ls name false) =
      sumFail ls + (ls.map Prod.fst).count name := by
  induction ls with
  | nil => rfl
  | cons p rest ih =>
    rw [bumpStats_cons, sumFail_cons, sumFail_cons, ih, List.map_cons,
      List.count_cons]
    by_cases h : p.1 = name
    · rw [if_pos h]
      have hb : (p.1 == name) = true := beq_iff_eq.mpr h
      simp [hb]
      omega
    · rw [if_neg h]
      have hb : (p.1 == name) = false := by
        simp only [beq_eq_false_iff_ne, ne_eq]; exact h
      simp [hb]
      omega

/-- A success bump leaves the failure sum unchanged. -/
theorem sumFail_bumpStats_true (ls : Stats) (name : String) :
    sumFail (bumpStats ls name true) = sumFail ls := by
  induction ls with
  | nil => rfl
  | cons p rest ih =>
    rw [bumpStats_cons, sumFail_cons, sumFail_cons, ih]
    by_cases h : p.1 = name
    · rw [if_pos h]
      rfl
    · rw [if_neg h]

/-- Each configured service name occurs exactly once in the list. -/
theorem count_serviceNames (name : String) (h : name ∈ serviceNames) :
    serviceNames.count name = 1 := by
  fin_cases h <;> decide

/-- Unfolding of association-list lookup on a cons cell, with a
propositional condition. -/
theorem lookup_cons (a : String) (p : String × SvcStat) (l : Stats) :
    List.lookup a (p :: l) = if a = p.1 then some p.2 else List.lookup a l := by
  obtain ⟨k, v⟩ := p
  by_cases h : a = k
  · have hb : (a == k) = true := beq_iff_eq.mpr h
    simp [List.lookup, hb, h]
  · have hb : (a == k) = false := by
      simp only [beq_eq_false_iff_ne, ne_eq]; exact h
    simp [List.lookup, hb, h]

/-- Looking up the bumped key returns the bumped entry. -/
theorem lookup_bumpStats (ls : Stats) (name : String) (b : Bool) :
    List.lookup name (bumpStats ls name b) =
      (List.lookup name ls).map (fun s =>
        if b then ⟨s.success + 1, s.failed⟩
        else ⟨s.success, s.failed + 1⟩) := by
  induction ls with
  | nil => rfl
  | cons p rest ih =>
    by_cases h : p.1 = name
    · rw [bumpStats_cons, if_pos h, lookup_cons, lookup_cons, if_pos h.symm,
        if_pos h.symm]
      rfl
    · have h' : ¬ name = p.1 := fun hh => h hh.symm
      rw [bumpStats_cons, if_neg h, lookup_cons, lookup_cons, if_neg h',
        if_neg h', ih]

/-- The statistics invariant holds at every record state produced by the
system's own writes, coupled with the runner's local statistics. -/
theorem Reach.inv (t : TaskRecord) (ls : Stats) (h : Reach t ls) :
    t.total_requests = t.successful_requests + t.failed_requests ∧
    sumSucc t.services_stats = t.successful_requests ∧
    sumFail t.services_stats = t.failed_requests ∧
    sumSucc ls = t.successful_requests ∧
    sumFail ls = t.failed_requests ∧
    ls.map Prod.fst = serviceNames := by
  induction h with
  | created tid ph iv now => exact ⟨rfl, rfl, rfl, rfl, rfl, rfl⟩
  | runnerStart t ls now h ih => exact ih
  | actionWrite t ls name b iter clock h hn ih =>
    obtain ⟨h1, h2, h3, h4, h5, h6⟩ := ih
    have hc : (ls.map Prod.fst).count name = 1 := by
      rw [h6]; exact count_serviceNames name hn
    cases b
    · refine ⟨?_, ?_, ?_, ?_, ?_, ?_⟩
      · show t.total_requests + 1 =
          (t.successful_requests + 0) + (t.failed_requests + 1)
        omega
      · show sumSucc (bumpStats ls name false) = t.successful_requests + 0
        rw [sumSucc_bumpStats_false, h4]
        omega
      · show sumFail (bumpStats ls name false) = t.failed_requests + 1
        rw [sumFail_bumpStats_false, hc, h5]
      · show sumSucc (bumpStats ls name false) = t.successful_requests + 0
        rw [sumSucc_bumpStats_false, h4]
        omega
      · show sumFail (bumpStats ls name false) = t.failed_requests + 1
        rw [sumFail_bumpStats_false, hc, h5]
      · show (bumpStats ls name false).map Prod.fst = serviceNames
        rw [bumpStats_map_fst, h6]
    · refine ⟨?_, ?_, ?_, ?_, ?_, ?_⟩
      · show t.total_requests + 1 =
          (t.successful_requests + 1) + (t.failed_requests + 0)
        omega
      · show sumSucc (bumpStats ls name true) = t.successful_requests + 1
        rw [sumSucc_bumpStats_true, hc, h4]
      · show sumFail (bumpStats ls name true) = t.failed_requests + 0
        rw [sumFail_bumpStats_true, h5]
        omega
      · show sumSucc (bumpStats ls name true) = t.successful_requests + 1
        rw [sumSucc_bumpStats_true, hc, h4]
      · show sumFail (bumpStats ls name true) = t.failed_requests + 0
        rw [sumFail_bumpStats_true, h5]
        omega
      · show (bumpStats ls name true).map Prod.fst = serviceNames
        rw [bumpStats_map_fst, h6]
  | stopWrite t ls now h hr ih => exact ih
  | errorWrite t ls now msg h ih => exact ih

/-- Every merge-update appended to the log by one action's processing
carries no status field. -/
theorem processAction_log (out : Nat → HttpOutcome) (name : String)
    (st : RunState) :
    ∃ l, (TaskManager.processAction out name st).log = st.log ++ l ∧
      ∀ u ∈ l, u.status = none := by
  cases h : st.store.record with
  | none =>
    refine ⟨[], ?_, by simp⟩
    simp [TaskManager.processAction, h]
  | some t =>
    refine ⟨[mkActionUpd t
      (bumpStats st.stats name (send_request name (out st.acts)).success)
      st.iter st.clock (send_request name (out st.acts)).success], ?_, ?_⟩
    · simp [TaskManager.processAction, h]
    · intro u hu
      have : u = mkActionUpd t
          (bumpStats st.stats name (send_request name (out st.acts)).success)
          st.iter st.clock (send_request name (out st.acts)).success := by
        simpa using hu
      subst this
      rfl

/-- Every merge-update appended to the log during one pass over the
services carries no status field. -/
theorem runActions_log (sig : Nat → Bool) (out : Nat → HttpOutcome)
    (fault : Option Nat) (names : List String) :
    ∀ st : RunState, ∃ l,
      (TaskManager.runActions sig out fault names st).1.log = st.log ++ l ∧
      ∀ u ∈ l, u.status = none := by
  induction names with
  | nil =>
    intro st
    exact ⟨[], by simp [TaskManager.runActions], by simp⟩
  | cons name rest ih =>
    intro st
    cases hs : sig st.tick with
    | true =>
      exact ⟨[], by simp [TaskManager.runActions, hs], by simp⟩
    | false =>
      by_cases hf : fault = some st.acts
      · exact ⟨[], by simp [TaskManager.runActions, hs, hf], by simp⟩
      · obtain ⟨l1, hl1, hp1⟩ :=
          processAction_log out name { st with tick := st.tick + 1 }
        obtain ⟨l2, hl2, hp2⟩ :=
          ih (TaskManager.processAction out name { st with tick := st.tick + 1 })
        refine ⟨l1 ++ l2, ?_, ?_⟩
        · have hrw : TaskManager.runActions sig out fault (name :: rest) st =
              TaskManager.runActions sig out fault rest
                (TaskManager.processAction out name
                  { st with tick := st.tick + 1 }) := by
            simp [TaskManager.runActions, hs, hf]
          rw [hrw, hl2, hl1, List.append_assoc]
        · intro u hu
          rcases List.mem_append.mp hu with h | h
          · exact hp1 u h
          · exact hp2 u h

/-- Every merge-update appended to the log by the fuelled loop carries no
status field. -/
theorem runLoop_log (sig : Nat → Bool) (out : Nat → HttpOutcome)
    (fault : Option Nat) :
    ∀ (fuel : Nat) (st : RunState), ∃ l,
      (TaskManager.runLoop sig out fault fuel st).1.log = st.log ++ l ∧
      ∀ u ∈ l, u.status = none := by
  intro fuel
  induction fuel with
  | zero =>
    intro st
    exact ⟨[], by simp [TaskManager.runLoop], by simp⟩
  | succ fuel ih =>
    intro st
    cases hs : sig st.tick with
    | true =>
      exact ⟨[], by simp [TaskManager.runLoop, hs], by simp⟩
    | false =>
      obtain ⟨l1, hl1, hp1⟩ := runActions_log sig out fault serviceNames
        { st with tick := st.tick + 1, iter := st.iter + 1 }
      cases hp : (TaskManager.runActions sig out fault serviceNames
          { st with tick := st.tick + 1, iter := st.iter + 1 }).2 with
      | true =>
        refine ⟨l1, ?_, hp1⟩
        have hrw : TaskManager.runLoop sig out fault (fuel + 1) st =
            TaskManager.runActions sig out fault serviceNames
              { st with tick := st.tick + 1, iter := st.iter + 1 } := by
          simp [TaskManager.runLoop, hs, hp]
        rw [hrw, hl1]
      | false =>
        obtain ⟨l2, hl2, hp2⟩ := ih (TaskManager.runActions sig out fault
          serviceNames { st with tick := st.tick + 1, iter := st.iter + 1 }).1
        refine ⟨l1 ++ l2, ?_, ?_⟩
        · have hrw : TaskManager.runLoop sig out fault (fuel + 1) st =
              TaskManager.runLoop sig out fault fuel
                (TaskManager.runActions sig out fault serviceNames
                  { st with tick := st.tick + 1, iter := st.iter + 1 }).1 := by
            simp [TaskManager.runLoop, hs, hp]
          rw [hrw, hl2, hl1, List.append_assoc]
        · intro u hu
          rcases List.mem_append.mp hu with h | h
          · exact hp1 u h
          · exact hp2 u h

/-- A concrete freshly created store, for instantiating theorems. -/
def sampleCreateStore : RedisStore :=
  RedisManager.create_task "taskid-0000-0000" "5550100" 60 0

/-- A concrete record of a running task. -/
def sampleRunning : TaskRecord :=
  { create_task_record "taskid-0000-0000" "5550100" 60 0 with
    status := TaskStatus.running, started_at := some 1 }

/-- A concrete store holding a running task. -/
def sampleRunningStore : RedisStore :=
  { record := some sampleRunning, ttl := some 86400 }

/-- A concrete record of a stopped task. -/
def sampleStopped : TaskRecord :=
  { sampleRunning with status := TaskStatus.stopped, stopped_at := some 9 }

/-- A concrete store holding a stopped task. -/
def sampleStoppedStore : RedisStore :=
  { record := some sampleStopped, ttl := some 86400 }

/-- A concrete runner state mid-run over the running store. -/
def sampleRunState : RunState :=
  { store := sampleRunningStore, stats := initStats, iter := 1, tick := 0,
    acts := 0, clock := 2, log := [] }

/-- A signal that is always observed set. -/
def sigAlways : Nat → Bool := fun _ => true

/-- A signal that is never observed set. -/
def sigNever : Nat → Bool := fun _ => false

/-- An outcome oracle on which every request raises a timeout. -/
def outTimeout : Nat → HttpOutcome := fun _ => HttpOutcome.timeout

/-- C3 (counterexample): the record written by `create_task` has an empty
`services_stats` mapping, while three actions are configured, so the
stored `action_stats` mapping is not pre-populated with one zero-valued
entry per configured action name. -/
theorem C3_counterexample :
    (create_task_record "taskid-0000-0000" "5550100" 60 0).services_stats = [] ∧
    serviceNames.length = 3 ∧
    ¬ ((create_task_record "taskid-0000-0000" "5550100" 60
        0).services_stats.map Prod.fst = serviceNames) := by
  refine ⟨rfl, rfl, ?_⟩
  decide

/-- C3 (amended): `create` writes an initial record with status Pending and
all counters (iterations, total, successful, failed) zero, but its stored
`action_stats` mapping is empty; the one-zero-entry-per-action mapping is
only built in the Runner's memory when the task starts. -/
theorem C3_create_initial_record (task_id phone_number : String)
    (interval now : Nat) :
    (RedisManager.create_task task_id phone_number interval now).record =
      some (create_task_record task_id phone_number interval now) ∧
    (create_task_record task_id phone_number interval now).status =
      TaskStatus.pending ∧
    (create_task_record task_id phone_number interval now).iterations = 0 ∧
    (create_task_record task_id phone_number interval now).total_requests = 0 ∧
    (create_task_record task_id phone_number interval
      now).successful_requests = 0 ∧
    (create_task_record task_id phone_number interval now).failed_requests = 0 ∧
    (create_task_record task_id phone_number interval now).services_stats = [] ∧
    initStats = serviceNames.map (fun n => (n, ⟨0, 0⟩)) :=
  ⟨rfl, rfl, rfl, rfl, rfl, rfl, rfl, rfl⟩

/-- C5: `delete_task` reports not-found when no record exists; on a running
task it reports an invalid state and leaves the store entirely unchanged;
otherwise it removes the record. -/
theorem C5_delete_semantics (s : RedisStore) :
    (s.record = none →
      TaskManager.delete_task s = (TaskManager.DeleteOutcome.notFound, s)) ∧
    (∀ t, s.record = some t → t.status = TaskStatus.running →
      TaskManager.delete_task s = (TaskManager.DeleteOutcome.invalidState, s)) ∧
    (∀ t, s.record = some t → t.status ≠ TaskStatus.running →
      (TaskManager.delete_task s).1 = TaskManager.DeleteOutcome.deleted ∧
      (TaskManager.delete_task s).2.record = none) := by
  refine ⟨?_, ?_, ?_⟩
  · intro h
    simp [TaskManager.delete_task, h]
  · intro t ht hr
    simp [TaskManager.delete_task, ht, hr]
  · intro t ht hr
    constructor <;>
      simp [TaskManager.delete_task, RedisManager.delete_task, ht, hr]

/-- C5 (witness): deleting a concrete stopped task succeeds and removes the
record. -/
theorem C5_witness :
    (TaskManager.delete_task sampleStoppedStore).1 =
      TaskManager.DeleteOutcome.deleted ∧
    (TaskManager.delete_task sampleStoppedStore).2.record = none :=
  (C5_delete_semantics sampleStoppedStore).2.2 sampleStopped rfl (by decide)

/-- C9: a service response is successful exactly when its error field is
absent, and a returned HTTP response with any status code (4xx and 5xx
included) produces a response with no error, hence a success. -/
theorem C9_success_iff_no_error (name : String) (o : HttpOutcome)
    (code : Nat) (body : String) :
    ((send_request name o).success = true ↔
      (send_request name o).error = none) ∧
    (send_request name (HttpOutcome.ok code body)).success = true ∧
    (send_request name (HttpOutcome.ok code body)).error = none ∧
    (send_request name (HttpOutcome.ok code body)).status_code = some code := by
  refine ⟨?_, rfl, rfl, rfl⟩
  cases o <;> simp [send_request, mkServiceResponse]

/-- C10: task creation sets a 86400-second expiry on the stored record, and
no later merge-update (status changes included) removes or changes that
expiry. -/
theorem C10_expiry (task_id phone_number : String) (interval now : Nat) :
    (RedisManager.create_task task_id phone_number interval now).ttl =
      some 86400 ∧
    ∀ (s : RedisStore) (u : Upd),
      (RedisManager.update_task s u).ttl = s.ttl :=
  ⟨rfl, fun _ _ => rfl⟩

/-- C1: at every observation of a task's record produced by the system's
own writes, `total_requests` equals `successful_requests` plus
`failed_requests`, the sum of the per-action success counts equals
`successful_requests`, and likewise for failures; the `Reach` relation
closes the record over all of the system's write sites, so in particular
every per-action merge-update issued by the runner preserves the
invariant. -/
theorem C1_counter_invariant (t : TaskRecord) (ls : Stats)
    (h : Reach t ls) :
    t.total_requests = t.successful_requests + t.failed_requests ∧
    sumSucc t.services_stats = t.successful_requests ∧
    sumFail t.services_stats = t.failed_requests :=
  ⟨(Reach.inv t ls h).1, (Reach.inv t ls h).2.1, (Reach.inv t ls h).2.2.1⟩

/-- The initial record of the sample task. -/
def sampleBase : TaskRecord :=
  create_task_record "taskid-0000-0000" "5550100" 60 0

/-- The sample record after the runner's `status=running` write. -/
def sampleStarted : TaskRecord := applyUpd sampleBase (runningUpd 1)

/-- The runner-local statistics after one successful Hungama request. -/
def sampleStats1 : Stats := bumpStats initStats "Hungama" true

/-- The sample record after one per-action merge-update. -/
def sampleAfterAction : TaskRecord :=
  applyUpd sampleStarted (mkActionUpd sampleStarted sampleStats1 1 2 true)

/-- C1 (witness): the invariant at a concrete record reached by create,
runner start and one successful action write. -/
theorem C1_witness :
    sampleAfterAction.total_requests =
      sampleAfterAction.successful_requests +
        sampleAfterAction.failed_requests ∧
    sumSucc sampleAfterAction.services_stats =
      sampleAfterAction.successful_requests ∧
    sumFail sampleAfterAction.services_stats =
      sampleAfterAction.failed_requests :=
  C1_counter_invariant sampleAfterAction sampleStats1
    (Reach.actionWrite sampleStarted initStats "Hungama" true 1 2
      (Reach.runnerStart sampleBase initStats 1
        (Reach.created "taskid-0000-0000" "5550100" 60 0))
      (by decide))

/-- C2: `stop_task` reports not-found when no record exists and an invalid
state (leaving everything unchanged) when the record is not running;
otherwise it signals the registered cancellation event, deregisters it,
merge-updates the record to stopped with `stopped_at = now`, and a second
stop right after then reports an invalid state. -/
theorem C2_stop_semantics (s : RedisStore) (reg : Option Bool)
    (now now2 : Nat) (reg2 : Option Bool) :
    (s.record = none →
      TaskManager.stop_task s reg now =
        ⟨StopOutcome.notFound, s, reg, false⟩) ∧
    (∀ t, s.record = some t → t.status ≠ TaskStatus.running →
      TaskManager.stop_task s reg now =
        ⟨StopOutcome.invalidState t.status, s, reg, false⟩) ∧
    (∀ t, s.record = some t → t.status = TaskStatus.running →
      (TaskManager.stop_task s reg now).outcome = StopOutcome.stopped ∧
      (TaskManager.stop_task s reg now).signalled = reg.isSome ∧
      (TaskManager.stop_task s reg now).registry = none ∧
      (TaskManager.stop_task s reg now).store.record =
        some { t with status := TaskStatus.stopped, stopped_at := some now } ∧
      (TaskManager.stop_task (TaskManager.stop_task s reg now).store reg2
          now2).outcome = StopOutcome.invalidState TaskStatus.stopped) := by
  refine ⟨?_, ?_, ?_⟩
  · intro h
    simp [TaskManager.stop_task, h]
  · intro t ht hne
    simp [TaskManager.stop_task, ht, hne]
  · intro t ht hr
    have hstop : TaskManager.stop_task s reg now =
        ⟨StopOutcome.stopped, RedisManager.update_task s (stopUpd now), none,
          reg.isSome⟩ := by
      simp [TaskManager.stop_task, ht, hr]
    have hrec : (RedisManager.update_task s (stopUpd now)).record =
        some { t with status := TaskStatus.stopped, stopped_at := some now } := by
      have hmap : (RedisManager.update_task s (stopUpd now)).record =
          s.record.map (fun t0 => applyUpd t0 (stopUpd now)) := rfl
      rw [hmap, ht]
      rfl
    refine ⟨by rw [hstop], by rw [hstop], by rw [hstop], ?_, ?_⟩
    · rw [hstop]
      exact hrec
    · rw [hstop]
      simp [TaskManager.stop_task, hrec]

/-- C2 (witness): stopping a concrete running task with a registered event
succeeds, signals, deregisters, writes stopped with the timestamp, and a
second stop reports an invalid state. -/
theorem C2_witness :
    (TaskManager.stop_task sampleRunningStore (some false) 5).outcome =
      StopOutcome.stopped ∧
    (TaskManager.stop_task sampleRunningStore (some false) 5).signalled =
      true ∧
    (TaskManager.stop_task sampleRunningStore (some false) 5).registry =
      none ∧
    (TaskManager.stop_task sampleRunningStore (some false) 5).store.record =
      some { sampleRunning with status := TaskStatus.stopped, stopped_at := some 5 } ∧
    (TaskManager.stop_task
        (TaskManager.stop_task sampleRunningStore (some false) 5).store
        none 6).outcome = StopOutcome.invalidState TaskStatus.stopped :=
  (C2_stop_semantics sampleRunningStore (some false) 5 6 none).2.2
    sampleRunning rfl rfl

/-- C4: when the cancellation signal is observed at the check before an
action of a pass, the remaining actions of the pass run no requests and
change no store state, statistics or log (so no counter is incremented for
them); then for any further amount of fuel the loop exits at its next
check without issuing any write, leaving the store — in particular the
coordinator's stopped status — exactly as it was at the observation. -/
theorem C4_cancel_mid_pass (sig : Nat → Bool) (out : Nat → HttpOutcome)
    (fault : Option Nat) (name : String) (names : List String)
    (st : RunState) (fuel : Nat)
    (hmono : ∀ i j : Nat, i ≤ j → sig i = true → sig j = true)
    (hobs : sig st.tick = true) :
    (TaskManager.runActions sig out fault (name :: names) st).1.store =
      st.store ∧
    (TaskManager.runActions sig out fault (name :: names) st).1.stats =
      st.stats ∧
    (TaskManager.runActions sig out fault (name :: names) st).1.log =
      st.log ∧
    (TaskManager.runActions sig out fault (name :: names) st).2 = false ∧
    (TaskManager.runLoop sig out fault fuel
        (TaskManager.runActions sig out fault (name :: names) st).1).1.store =
      st.store ∧
    (TaskManager.runLoop sig out fault fuel
        (TaskManager.runActions sig out fault (name :: names) st).1).1.log =
      st.log ∧
    (TaskManager.runLoop sig out fault fuel
        (TaskManager.runActions sig out fault (name :: names) st).1).2 =
      false := by
  have hact : TaskManager.runActions sig out fault (name :: names) st =
      ({ st with tick := st.tick + 1 }, false) := by
    simp [TaskManager.runActions, hobs]
  have hsig2 : sig (st.tick + 1) = true :=
    hmono st.tick (st.tick + 1) (Nat.le_succ st.tick) hobs
  have hloop : (TaskManager.runLoop sig out fault fuel
        { st with tick := st.tick + 1 }).1.store = st.store ∧
      (TaskManager.runLoop sig out fault fuel
        { st with tick := st.tick + 1 }).1.log = st.log ∧
      (TaskManager.runLoop sig out fault fuel
        { st with tick := st.tick + 1 }).2 = false := by
    cases fuel with
    | zero => exact ⟨rfl, rfl, rfl⟩
    | succ n =>
      have hrw : TaskManager.runLoop sig out fault (n + 1)
          { st with tick := st.tick + 1 } =
          ({ st with tick := st.tick + 1 + 1 }, false) := by
        simp [TaskManager.runLoop, hsig2]
      rw [hrw]
      exact ⟨rfl, rfl, rfl⟩
  rw [hact]
  exact ⟨rfl, rfl, rfl, rfl, hloop.1, hloop.2.1, hloop.2.2⟩

/-- C4 (witness): the cancellation-observed pass at a concrete runner
state. -/
theorem C4_witness :
    (TaskManager.runActions sigAlways outTimeout none
        ("Hungama" :: ["ShemarooMe", "Unacademy"]) sampleRunState).1.store =
      sampleRunState.store ∧
    (TaskManager.runActions sigAlways outTimeout none
        ("Hungama" :: ["ShemarooMe", "Unacademy"]) sampleRunState).1.stats =
      sampleRunState.stats ∧
    (TaskManager.runActions sigAlways outTimeout none
        ("Hungama" :: ["ShemarooMe", "Unacademy"]) sampleRunState).1.log =
      sampleRunState.log ∧
    (TaskManager.runActions sigAlways outTimeout none
        ("Hungama" :: ["ShemarooMe", "Unacademy"]) sampleRunState).2 =
      false ∧
    (TaskManager.runLoop sigAlways outTimeout none 3
        (TaskManager.runActions sigAlways outTimeout none
          ("Hungama" :: ["ShemarooMe", "Unacademy"])
          sampleRunState).1).1.store = sampleRunState.store ∧
    (TaskManager.runLoop sigAlways outTimeout none 3
        (TaskManager.runActions sigAlways outTimeout none
          ("Hungama" :: ["ShemarooMe", "Unacademy"])
          sampleRunState).1).1.log = sampleRunState.log ∧
    (TaskManager.runLoop sigAlways outTimeout none 3
        (TaskManager.runActions sigAlways outTimeout none
          ("Hungama" :: ["ShemarooMe", "Unacademy"])
          sampleRunState).1).2 = false :=
  C4_cancel_mid_pass sigAlways outTimeout none "Hungama"
    ["ShemarooMe", "Unacademy"] sampleRunState 3
    (fun _ _ _ hh => hh) rfl

/-- C6: when an unrecoverable fault propagates out of the runner's loop,
the runner's last write merge-updates the record to status error with
`stopped_at` set and `last_activity` holding the fault description, and
the runner then exits; on every exit without a fault the runner writes no
terminal status at all (its only status write is the initial running
write), so the fault path is the only exit path on which the runner itself
writes a terminal status. -/
theorem C6_fault_error_write (sig : Nat → Bool) (out : Nat → HttpOutcome)
    (fault : Option Nat) (msg : String) (fuel : Nat) (store0 : RedisStore) :
    ((TaskManager.run_task sig out fault msg fuel store0).2 = true →
      (∃ n, ((TaskManager.run_task sig out fault msg fuel
          store0).1.log).getLast? =
        some { status := some TaskStatus.error, stopped_at := some n,
               last_activity := some ("Error: " ++ msg) }) ∧
      (∀ t, (TaskManager.run_task sig out fault msg fuel
          store0).1.store.record = some t →
        t.status = TaskStatus.error ∧
        t.last_activity = some ("Error: " ++ msg) ∧
        ∃ n, t.stopped_at = some n) ∧
      (∀ u ∈ ((TaskManager.run_task sig out fault msg fuel
          store0).1.log).dropLast,
        ∀ s, u.status = some s → s = TaskStatus.running)) ∧
    ((TaskManager.run_task sig out fault msg fuel store0).2 = false →
      ∀ u ∈ (TaskManager.run_task sig out fault msg fuel store0).1.log,
        ∀ s, u.status = some s → s = TaskStatus.running) := by
  obtain ⟨l, hl, hstat⟩ := runLoop_log sig out fault fuel (initRunState store0)
  have hlog : ∀ u ∈ (TaskManager.runLoop sig out fault fuel
        (initRunState store0)).1.log,
      ∀ s, u.status = some s → s = TaskStatus.running := by
    intro u hu s hs
    rw [hl] at hu
    rcases List.mem_append.mp hu with h | h
    · have hu0 : u = runningUpd 0 := by
        simpa [initRunState] using h
      subst hu0
      have : (some TaskStatus.running : Option TaskStatus) = some s := by
        rw [← hs]; rfl
      injection this with h'
      exact h'.symm
    · rw [hstat u h] at hs
      cases hs
  cases hp : (TaskManager.runLoop sig out fault fuel (initRunState store0)).2
    with
  | false =>
    have hr : TaskManager.run_task sig out fault msg fuel store0 =
        TaskManager.runLoop sig out fault fuel (initRunState store0) := by
      simp only [TaskManager.run_task]
      rw [hp]
      simp
    constructor
    · intro habs
      rw [hr, hp] at habs
      cases habs
    · intro _
      rw [hr]
      exact hlog
  | true =>
    have hr : TaskManager.run_task sig out fault msg fuel store0 =
        ({ (TaskManager.runLoop sig out fault fuel (initRunState store0)).1
            with
          store := RedisManager.update_task
            (TaskManager.runLoop sig out fault fuel
              (initRunState store0)).1.store
            (errorUpd (TaskManager.runLoop sig out fault fuel
              (initRunState store0)).1.clock msg)
          log := (TaskManager.runLoop sig out fault fuel
              (initRunState store0)).1.log ++
            [errorUpd (TaskManager.runLoop sig out fault fuel
              (initRunState store0)).1.clock msg]
          clock := (TaskManager.runLoop sig out fault fuel
            (initRunState store0)).1.clock + 1 }, true) := by
      simp only [TaskManager.run_task]
      rw [hp]
      simp
    constructor
    · intro _
      refine ⟨?_, ?_, ?_⟩
      · refine ⟨(TaskManager.runLoop sig out fault fuel
          (initRunState store0)).1.clock, ?_⟩
        rw [hr]
        show ((TaskManager.runLoop sig out fault fuel
            (initRunState store0)).1.log ++
          [errorUpd (TaskManager.runLoop sig out fault fuel
            (initRunState store0)).1.clock msg]).getLast? = _
        rw [List.getLast?_concat]
        rfl
      · intro t ht
        rw [hr] at ht
        have hrec : (RedisManager.update_task
            (TaskManager.runLoop sig out fault fuel
              (initRunState store0)).1.store
            (errorUpd (TaskManager.runLoop sig out fault fuel
              (initRunState store0)).1.clock msg)).record =
            ((TaskManager.runLoop sig out fault fuel
              (initRunState store0)).1.store.record).map
              (fun t0 => applyUpd t0 (errorUpd
                (TaskManager.runLoop sig out fault fuel
                  (initRunState store0)).1.clock msg)) := rfl
    -- ht : the mapped record equals some t
        rw [show ({ (TaskManager.runLoop sig out fault fuel
            (initRunState store0)).1 with
          store := RedisManager.update_task
            (TaskManager.runLoop sig out fault fuel
              (initRunState store0)).1.store
            (errorUpd (TaskManager.runLoop sig out fault fuel
              (initRunState store0)).1.clock msg)
          log := (TaskManager.runLoop sig out fault fuel
              (initRunState store0)).1.log ++
            [errorUpd (TaskManager.runLoop sig out fault fuel
              (initRunState store0)).1.clock msg]
          clock := (TaskManager.runLoop sig out fault fuel
            (initRunState store0)).1.clock + 1 } : RunState).store =
            RedisManager.update_task
              (TaskManager.runLoop sig out fault fuel
                (initRunState store0)).1.store
              (errorUpd (TaskManager.runLoop sig out fault fuel
                (initRunState store0)).1.clock msg) from rfl] at ht
        rw [hrec] at ht
        cases hrecord : (TaskManager.runLoop sig out fault fuel
            (initRunState store0)).1.store.record with
        | none => rw [hrecord] at ht; cases ht
        | some t0 =>
          rw [hrecord] at ht
          rw [Option.map_some'] at ht
          injection ht with ht'
          subst ht'
          exact ⟨rfl, rfl, ⟨(TaskManager.runLoop sig out fault fuel
            (initRunState store0)).1.clock, rfl⟩⟩
      · intro u hu s hs
        rw [hr] at hu
        have : u ∈ (TaskManager.runLoop sig out fault fuel
            (initRunState store0)).1.log := by
          have hdl : (((TaskManager.runLoop sig out fault fuel
              (initRunState store0)).1.log ++
            [errorUpd (TaskManager.runLoop sig out fault fuel
              (initRunState store0)).1.clock msg]).dropLast) =
              (TaskManager.runLoop sig out fault fuel
                (initRunState store0)).1.log := by
            rw [List.dropLast_concat]
          rw [show ({ (TaskManager.runLoop sig out fault fuel
              (initRunState store0)).1 with
            store := RedisManager.update_task
              (TaskManager.runLoop sig out fault fuel
                (initRunState store0)).1.store
              (errorUpd (TaskManager.runLoop sig out fault fuel
                (initRunState store0)).1.clock msg)
            log := (TaskManager.runLoop sig out fault fuel
                (initRunState store0)).1.log ++
              [errorUpd (TaskManager.runLoop sig out fault fuel
                (initRunState store0)).1.clock msg]
            clock := (TaskManager.runLoop sig out fault fuel
              (initRunState store0)).1.clock + 1 } : RunState).log =
              (TaskManager.runLoop sig out fault fuel
                (initRunState store0)).1.log ++
              [errorUpd (TaskManager.runLoop sig out fault fuel
                (initRunState store0)).1.clock msg] from rfl] at hu
          rw [hdl] at hu
          exact hu
        exact hlog u this s hs
    · intro habs
      rw [hr] at habs
      cases habs

/-- C6 (witness): a concrete faulting run ends with the error
merge-update. -/
theorem C6_witness :
    ∃ n, ((TaskManager.run_task sigNever outTimeout (some 0)
        "store unreachable" 1 sampleCreateStore).1.log).getLast? =
      some { status := some TaskStatus.error, stopped_at := some n,
             last_activity := some ("Error: " ++ "store unreachable") } :=
  ((C6_fault_error_write sigNever outTimeout (some 0) "store unreachable" 1
    sampleCreateStore).1 rfl).1

/-- C7: an action whose request raises an exception (here surfaced as a
failure-classified response by `send_request`) is counted as a failure —
the aggregate failed counter and that action's failed count are both
incremented — and the pass continues with the remaining actions instead of
aborting. -/
theorem C7_exception_counted (sig : Nat → Bool) (out : Nat → HttpOutcome)
    (fault : Option Nat) (name : String) (rest : List String)
    (st : RunState) (t : TaskRecord) (s0 : SvcStat)
    (hnc : sig st.tick = false)
    (hnf : ¬ fault = some st.acts)
    (hexc : isExcOutcome (out st.acts) = true)
    (ht : st.store.record = some t)
    (hs : List.lookup name st.stats = some s0) :
    TaskManager.runActions sig out fault (name :: rest) st =
      TaskManager.runActions sig out fault rest
        (TaskManager.processAction out name
          { st with tick := st.tick + 1 }) ∧
    (send_request name (out st.acts)).success = false ∧
    (∃ t', (TaskManager.processAction out name
        { st with tick := st.tick + 1 }).store.record = some t' ∧
      t'.total_requests = t.total_requests + 1 ∧
      t'.successful_requests = t.successful_requests ∧
      t'.failed_requests = t.failed_requests + 1) ∧
    List.lookup name (TaskManager.processAction out name
        { st with tick := st.tick + 1 }).stats =
      some ⟨s0.success, s0.failed + 1⟩ := by
  have hb : (send_request name (out st.acts)).success = false := by
    cases ho : out st.acts with
    | ok code body => rw [ho] at hexc; simp [isExcOutcome] at hexc
    | timeout => rfl
    | requestError m => rfl
    | otherError m => rfl
  have h1 : TaskManager.runActions sig out fault (name :: rest) st =
      TaskManager.runActions sig out fault rest
        (TaskManager.processAction out name
          { st with tick := st.tick + 1 }) := by
    simp [TaskManager.runActions, hnc, hnf]
  have hpa : TaskManager.processAction out name
      { st with tick := st.tick + 1 } =
      { st with
        tick := st.tick + 1 + 1
        stats := bumpStats st.stats name false
        store := RedisManager.update_task st.store
          (mkActionUpd t (bumpStats st.stats name false) st.iter st.clock
            false)
        log := st.log ++ [mkActionUpd t (bumpStats st.stats name false)
          st.iter st.clock false]
        acts := st.acts + 1
        clock := st.clock + 1 } := by
    simp [TaskManager.processAction, ht, hb]
  refine ⟨h1, hb, ?_, ?_⟩
  · refine ⟨applyUpd t (mkActionUpd t (bumpStats st.stats name false)
      st.iter st.clock false), ?_, rfl, rfl, rfl⟩
    rw [hpa]
    have hmap : (RedisManager.update_task st.store
        (mkActionUpd t (bumpStats st.stats name false) st.iter st.clock
          false)).record =
        st.store.record.map (fun t0 => applyUpd t0
          (mkActionUpd t (bumpStats st.stats name false) st.iter st.clock
            false)) := rfl
    show (RedisManager.update_task st.store
        (mkActionUpd t (bumpStats st.stats name false) st.iter st.clock
          false)).record = _
    rw [hmap, ht, Option.map_some']
  · rw [hpa]
    show List.lookup name (bumpStats st.stats name false) = _
    rw [lookup_bumpStats, hs]
    rfl

/-- C7 (witness): a concrete timed-out Hungama request is counted as a
failure in the per-action statistics. -/
theorem C7_witness :
    (send_request "Hungama" (outTimeout sampleRunState.acts)).success =
      false ∧
    List.lookup "Hungama" (TaskManager.processAction outTimeout "Hungama"
        { sampleRunState with tick := sampleRunState.tick + 1 }).stats =
      some ⟨0, 1⟩ :=
  ⟨(C7_exception_counted sigNever outTimeout none "Hungama" ["ShemarooMe"]
      sampleRunState sampleRunning ⟨0, 0⟩ rfl (by decide) rfl rfl
      (by decide)).2.1,
   (C7_exception_counted sigNever outTimeout none "Hungama" ["ShemarooMe"]
      sampleRunState sampleRunning ⟨0, 0⟩ rfl (by decide) rfl rfl
      (by decide)).2.2.2⟩

/-- C8: for every stored record, `get_task_info` reports a success rate
equal to `successful_requests / max(total_requests, 1)` as a percentage
(the spec-worded formula), rendered with exactly one fractional digit. -/
theorem C8_success_rate (s : RedisStore) (now : Nat) (t : TaskRecord)
    (h : s.record = some t) :
    ∃ info, TaskManager.get_task_info s now = some info ∧
      info.success_rate = fmt_pct_1f (spec_success_rate t) ∧
      ∃ a b : Int, 0 ≤ b ∧ b < 10 ∧
        info.success_rate = toString a ++ "." ++ toString b ++ "%" := by
  have hinfo : TaskManager.get_task_info s now = some
      { task_id := t.task_id
        phone_number := t.phone_number
        interval_seconds := t.interval
        status := t.status
        created_at := t.created_at
        started_at := t.started_at
        stopped_at := t.stopped_at
        runtime := TaskManager.runtimeOf t now
        iterations := t.iterations
        total_requests := t.total_requests
        successful_requests := t.successful_requests
        failed_requests := t.failed_requests
        success_rate := fmt_pct_1f (((t.successful_requests : ℚ) /
          ((max t.total_requests 1 : Nat) : ℚ)) * 100)
        last_activity := t.last_activity
        services_stats := t.services_stats } := by
    simp [TaskManager.get_task_info, h]
  refine ⟨_, hinfo, ?_, ?_⟩
  · show fmt_pct_1f (((t.successful_requests : ℚ) /
        ((max t.total_requests 1 : Nat) : ℚ)) * 100) =
      fmt_pct_1f (spec_success_rate t)
    unfold spec_success_rate
    exact congrArg fmt_pct_1f (div_mul_eq_mul_div _ _ _)
  · refine ⟨round ((((t.successful_requests : ℚ) /
        ((max t.total_requests 1 : Nat) : ℚ)) * 100) * 10) / 10,
      round ((((t.successful_requests : ℚ) /
        ((max t.total_requests 1 : Nat) : ℚ)) * 100) * 10) % 10,
      Int.emod_nonneg _ (by norm_num),
      Int.emod_lt_of_pos _ (by norm_num), rfl⟩

/-- C8 (witness): the success rate reported for a concrete fresh record. -/
theorem C8_witness :
    ∃ info, TaskManager.get_task_info sampleCreateStore 0 = some info ∧
      info.success_rate = fmt_pct_1f (spec_success_rate
        (create_task_record "taskid-0000-0000" "5550100" 60 0)) ∧
      ∃ a b : Int, 0 ≤ b ∧ b < 10 ∧
        info.success_rate = toString a ++ "." ++ toString b ++ "%" :=
  C8_success_rate sampleCreateStore 0
    (create_task_record "taskid-0000-0000" "5550100" 60 0) rfl
